import Mathlib

/-!
Verification of the create-strapi-app CLI orchestration.

Shallow embedding of `dist/create-strapi-app.js`: the option record produced
by the commander declaration, the interactive prompter, the cloud
provisioner, and the generation dispatcher.  Each JavaScript function is
translated into a pure Lean function that returns the list of observable
events it performs (console output, prompts, cloud API calls, generator
invocation) together with the run outcome (process exit or normal
completion).  Results of external asynchronous calls (inquirer answers,
cloud API responses) are supplied through explicit environment records, so
that every control path of the source is represented.

JavaScript truthiness of optional string flags is modelled by `truthy`
(`none` and `some ""` are falsy); boolean flags parsed by commander are
modelled as `Bool` (absent ↦ `false`), which is faithful because the source
only ever tests these fields for truthiness.
-/

namespace CreateStrapiApp

/-- JS truthiness of an optional string value (`undefined` and `""` are falsy). -/
def truthy (o : Option String) : Bool := o.getD "" != ""

/-- The options record produced by the commander declaration
(`command.option(...)` chain in the source).  `run` comes from `--no-run`
(default `true`), boolean flags default to `false`, value flags to `none`. -/
structure ProgramArgs where
  run : Bool := true
  useNpm : Bool := false
  debug : Bool := false
  quickstart : Bool := false
  skipCloud : Bool := false
  dbclient : Option String := none
  dbhost : Option String := none
  dbport : Option String := none
  dbname : Option String := none
  dbusername : Option String := none
  dbpassword : Option String := none
  dbssl : Option String := none
  dbfile : Option String := none
  dbforce : Bool := false
  template : Option String := none
  typescript : Bool := false
deriving DecidableEq, Repr

/-- The `databaseOptions` array of the source. -/
def databaseOptions : List String :=
  ["dbclient", "dbhost", "dbport", "dbname", "dbusername", "dbpassword", "dbssl", "dbfile"]

/-- Dynamic key lookup `programArgs[opt]` restricted to the database option keys. -/
def dbOptionValue (a : ProgramArgs) : String → Option String
  | "dbclient" => a.dbclient
  | "dbhost" => a.dbhost
  | "dbport" => a.dbport
  | "dbname" => a.dbname
  | "dbusername" => a.dbusername
  | "dbpassword" => a.dbpassword
  | "dbssl" => a.dbssl
  | "dbfile" => a.dbfile
  | _ => none

/-- `databaseOptions.some((opt) => programArgs[opt])` of the source. -/
def hasDatabaseOptions (a : ProgramArgs) : Bool :=
  databaseOptions.any fun opt => truthy (dbOptionValue a opt)

/-- The flag strings collected from `command.createHelp().visibleOptions(command)`:
every declared short and long flag, including the implicit version and help
options, with absent short forms filtered out (`filter(Boolean)`). -/
def programFlags : List String :=
  ["-V", "--version", "--no-run", "--use-npm", "--debug", "--quickstart", "--skip-cloud",
   "--dbclient", "--dbhost", "--dbport", "--dbname", "--dbusername", "--dbpassword",
   "--dbssl", "--dbfile", "--dbforce", "--template", "--ts", "--typescript", "-h", "--help"]

/-- Condition of the invalid-template check in `initProject`:
`programArgs.template && programFlags.includes(programArgs.template)`. -/
def templateCollides (a : ProgramArgs) : Bool :=
  truthy a.template && programFlags.contains (a.template.getD "")

/-- `console.error` message printed by `generateApp` when no project name is given. -/
def missingDirectoryMessage : String :=
  "Please specify the <directory> of your project when using --quickstart"

/-- `console.error` message for an invalid template value. -/
def templateErrorMessage (t : String) : String := t ++ " is not a valid template"

/-- `console.error` message for `--quickstart` combined with database options;
the source interpolates `databaseOptions.join(", ")`. -/
def quickstartConflictMessage : String :=
  "The quickstart option is incompatible with the following options: " ++
    String.intercalate ", " databaseOptions

/-- `defaultErrorMessage` constant of `handleCloudProject`. -/
def defaultErrorMessage : String :=
  "An error occurred while trying to interact with Strapi Cloud. Use strapi deploy command once the project is generated."

/-- Fallback message of the HTTP 403 branch of `handleCloudProject`. -/
def fallback403Message : String :=
  "We are sorry, but we are not able to create a Strapi Cloud project for you at the moment."

/-- The two inquirer questions `promptUser` may ask. -/
inductive Question where
  | directory
  | installType
deriving DecidableEq, Repr

/-- `e.response` of a caught cloud error; `data` is `some s` exactly when the
response body is the string `s` (`typeof e.response.data === "string"`). -/
structure CloudResponse where
  status : Nat
  data : Option String
deriving DecidableEq, Repr

/-- An error thrown inside `handleCloudProject`; `response = none` models an
error without a `response` field (so `assertCloudError` rejects it). -/
structure CloudError where
  response : Option CloudResponse
deriving DecidableEq, Repr

/-- Remote service configuration; only `projectCreation.introText` is read on
the paths the claims concern, so the defaults object is left out. -/
structure CloudConfig where
  introText : String
deriving DecidableEq, Repr

/-- Results of the awaited external cloud calls of `handleCloudProject`, in
program order.  An `Except.error` models the promise rejecting. -/
structure CloudEnv where
  initialConfig : Except CloudError CloudConfig
  userChoice : String
  tokenService : Except CloudError Unit
  loginSuccess : Except CloudError Bool
  retrieveToken : Except CloudError String
  authConfig : Except CloudError CloudConfig
  createProject : Except CloudError Unit
  save : Except CloudError Unit
deriving Repr

/-- Answers the user would give to the two prompts, were they asked. -/
structure PromptEnv where
  directoryAnswer : String
  quickAnswer : Bool
deriving DecidableEq, Repr

/-- The inquirer answers object returned by `promptUser`: a key is absent
(`none`) exactly when its question's `when` guard was false. -/
structure PromptAnswers where
  directory : Option String
  quick : Option Bool
deriving DecidableEq, Repr

/-- Observable events of a run: console and logger output, prompts shown,
cloud API traffic, spinner transitions, and external generator calls. -/
inductive Event where
  | checkInstallPath (dir : String)
  | consoleError (msg : String)
  | checkRequirements
  | generateNewApp (dir : String) (options : ProgramArgs)
  | prompted (questions : List Question)
  | configCall
  | logIntro (text : String)
  | logDebugE
  | logErrorE (msg : String)
  | logWarn (msg : String)
  | promptLogin
  | loginCall
  | tokenCall
  | spinnerStart
  | spinnerSucceed (msg : String)
  | spinnerFail (msg : String)
  | createProjectCall (name : String)
  | saveCall (dir : String)
deriving DecidableEq, Repr

/-- Events only `handleCloudProject` can emit. -/
def Event.isCloud : Event → Bool
  | .configCall | .logIntro _ | .logDebugE | .logErrorE _ | .logWarn _ | .promptLogin
  | .loginCall | .tokenCall | .spinnerStart | .spinnerSucceed _ | .spinnerFail _
  | .createProjectCall _ | .saveCall _ => true
  | _ => false

/-- Whether the process exited explicitly (`process.exit`) or the async
pipeline ran to completion. -/
inductive RunOutcome where
  | exited (code : Nat)
  | completed
deriving DecidableEq, Repr

/-- `promptUser(projectName, program, hasDatabaseOptions)`: the directory
question runs `when: !projectName`, the installation-type question runs
`when: !program.quickstart && !hasDatabaseOptions`.  Returns the answers
object together with the list of questions actually shown. -/
def promptUser (projectName : Option String) (program : ProgramArgs) (hasDb : Bool)
    (penv : PromptEnv) : PromptAnswers × List Question :=
  let askDir := !truthy projectName
  let askQuick := !program.quickstart && !hasDb
  ({ directory := if askDir then some penv.directoryAnswer else none,
     quick := if askQuick then some penv.quickAnswer else none },
   (if askDir then [Question.directory] else []) ++
     (if askQuick then [Question.installType] else []))

/-- The `catch (e)` handler of the project-creation `try` block of
`handleCloudProject`: `logger.debug(e)`, then `assertCloudError`; on an HTTP
403 response the server body (when it is a string) or the fallback message is
shown and the handler returns; otherwise the generic default message is
shown.  `spinning` is `projectCreationSpinner.isSpinning` at the throw site. -/
def cloudCatch (spinning : Bool) (e : CloudError) : List Event :=
  Event.logDebugE ::
    match e.response with
    | some resp =>
        if resp.status == 403 then
          [if spinning then Event.spinnerFail (resp.data.getD fallback403Message)
           else Event.logWarn (resp.data.getD fallback403Message)]
        else
          [if spinning then Event.spinnerFail defaultErrorMessage
           else Event.logErrorE defaultErrorMessage]
    | none =>
        [if spinning then Event.spinnerFail defaultErrorMessage
         else Event.logErrorE defaultErrorMessage]

/-- The `userChoice !== "Skip"` branch of `handleCloudProject`: token service
and login, token retrieval, authenticated config fetch, project creation
under the spinner, and descriptor persistence, each step able to reject into
the shared catch handler. -/
def cloudLoggedIn (projectName : String) (env : CloudEnv) : List Event :=
  match env.tokenService with
  | .error e => cloudCatch false e
  | .ok _ =>
    Event.loginCall ::
      match env.loginSuccess with
      | .error e => cloudCatch false e
      | .ok false => []
      | .ok true =>
        Event.logDebugE :: Event.tokenCall ::
          match env.retrieveToken with
          | .error e => cloudCatch false e
          | .ok _ =>
            Event.logDebugE :: Event.configCall ::
              match env.authConfig with
              | .error e => cloudCatch false e
              | .ok _ =>
                Event.logDebugE :: Event.logDebugE :: Event.spinnerStart ::
                  Event.createProjectCall projectName ::
                    match env.createProject with
                    | .error e => cloudCatch true e
                    | .ok _ =>
                      Event.spinnerSucceed "Project created on Strapi Cloud" ::
                        Event.logDebugE :: Event.saveCall projectName ::
                          match env.save with
                          | .error e => cloudCatch false e
                          | .ok _ => []

/-- `handleCloudProject(projectName)`: fetch the remote configuration (on
rejection log the generic message and return), show the login prompt, and
unless the user picked "Skip" run the logged-in provisioning sequence. -/
def handleCloudProject (projectName : String) (env : CloudEnv) : List Event :=
  Event.configCall ::
    match env.initialConfig with
    | .error _ => [Event.logDebugE, Event.logErrorE defaultErrorMessage]
    | .ok config =>
      Event.logIntro config.introText ::
        Event.promptLogin ::
          if env.userChoice == "Skip" then [] else cloudLoggedIn projectName env

/-- `generateApp(projectName, options)`: missing project name is a fatal
usage error; otherwise requirements are checked and the cloud provisioner
runs unless `skipCloud` is set, and the external generator is invoked. -/
def generateApp (projectName : Option String) (options : ProgramArgs)
    (cenv : CloudEnv) : List Event × RunOutcome :=
  if !truthy projectName then
    ([Event.consoleError missingDirectoryMessage], RunOutcome.exited 1)
  else
    let name := projectName.getD ""
    let cloudEvents :=
      if options.skipCloud then []
      else Event.checkRequirements :: handleCloudProject name cenv
    (cloudEvents ++ [Event.generateNewApp name options], RunOutcome.completed)

/-- The `if (projectName) await checkInstallPath(resolve(projectName))`
pre-check at the top of `initProject` (path resolution is node's, so the
event records the raw directory argument). -/
def installEvts (projectName : Option String) : List Event :=
  if truthy projectName then [Event.checkInstallPath (projectName.getD "")] else []

/-- `initProject(projectName, programArgs)`: install-path pre-check, invalid
template check, quickstart/database conflict check, forcing `quickstart`
to `false` when database options are present, then either the quickstart
path straight to `generateApp` or the interactive path through `promptUser`
and the template/quickstart merge. -/
def initProject (projectName : Option String) (programArgs : ProgramArgs)
    (penv : PromptEnv) (cenv : CloudEnv) : List Event × RunOutcome :=
  let installEvents := installEvts projectName
  if templateCollides programArgs then
    (installEvents ++ [Event.consoleError (templateErrorMessage (programArgs.template.getD ""))],
     RunOutcome.exited 1)
  else
    let hasDb := hasDatabaseOptions programArgs
    if programArgs.quickstart && hasDb then
      (installEvents ++ [Event.consoleError quickstartConflictMessage], RunOutcome.exited 1)
    else
      let args2 := if hasDb then { programArgs with quickstart := false } else programArgs
      if args2.quickstart then
        let r := generateApp projectName args2 cenv
        (installEvents ++ r.1, r.2)
      else
        let prompt := promptUser projectName args2 hasDb penv
        let answers := prompt.1
        let directory :=
          if truthy answers.directory then answers.directory.getD "" else projectName.getD ""
        let options :=
          { args2 with
            template := args2.template,
            quickstart := answers.quick.getD false || args2.quickstart }
        let r := generateApp (some directory) options cenv
        (installEvents ++ Event.prompted prompt.2 :: Event.checkInstallPath directory :: r.1,
         r.2)

/-- The directory the interactive path of `initProject` settles on:
`prompt.directory || projectName` (JS truthiness choice). -/
def interactiveDirectory (projectName : Option String) (args : ProgramArgs)
    (penv : PromptEnv) : String :=
  let answers := (promptUser projectName args (hasDatabaseOptions args) penv).1
  if truthy answers.directory then answers.directory.getD "" else projectName.getD ""

/-- The merged record `{ ...programArgs, template, quickstart: prompt.quick ||
programArgs.quickstart }` built by the interactive path of `initProject`. -/
def interactiveOptions (projectName : Option String) (args : ProgramArgs)
    (penv : PromptEnv) : ProgramArgs :=
  { args with
    template := args.template,
    quickstart :=
      ((promptUser projectName args (hasDatabaseOptions args) penv).1.quick.getD false) ||
        args.quickstart }

/-! ## Helper lemmas on the cloud provisioner trace -/

theorem mem_cloudCatch_isCloud (x : Event) (s : Bool) (e : CloudError)
    (hx : x ∈ cloudCatch s e) : x.isCloud = true := by
  obtain ⟨_ | ⟨st, d⟩⟩ := e
  · cases s <;> simp [cloudCatch] at hx <;> rcases hx with rfl | rfl <;> rfl
  · by_cases h : st == 403 <;> cases s <;>
      simp [cloudCatch, h] at hx <;> rcases hx with rfl | rfl <;> rfl

theorem mem_cloudLoggedIn_isCloud (x : Event) (n : String) (env : CloudEnv)
    (hx : x ∈ cloudLoggedIn n env) : x.isCloud = true := by
  unfold cloudLoggedIn at hx
  split at hx
  · exact mem_cloudCatch_isCloud _ _ _ hx
  simp only [List.mem_cons] at hx
  rcases hx with rfl | hx
  · rfl
  split at hx
  · exact mem_cloudCatch_isCloud _ _ _ hx
  · exact absurd hx (List.not_mem_nil x)
  simp only [List.mem_cons] at hx
  rcases hx with rfl | rfl | hx
  · rfl
  · rfl
  split at hx
  · exact mem_cloudCatch_isCloud _ _ _ hx
  simp only [List.mem_cons] at hx
  rcases hx with rfl | rfl | hx
  · rfl
  · rfl
  split at hx
  · exact mem_cloudCatch_isCloud _ _ _ hx
  simp only [List.mem_cons] at hx
  rcases hx with rfl | rfl | rfl | rfl | hx
  · rfl
  · rfl
  · rfl
  · rfl
  split at hx
  · exact mem_cloudCatch_isCloud _ _ _ hx
  simp only [List.mem_cons] at hx
  rcases hx with rfl | rfl | rfl | hx
  · rfl
  · rfl
  · rfl
  split at hx
  · exact mem_cloudCatch_isCloud _ _ _ hx
  · exact absurd hx (List.not_mem_nil x)

theorem mem_handleCloudProject_isCloud (x : Event) (n : String) (env : CloudEnv)
    (hx : x ∈ handleCloudProject n env) : x.isCloud = true := by
  unfold handleCloudProject at hx
  simp only [List.mem_cons] at hx
  rcases hx with rfl | hx
  · rfl
  split at hx
  · simp only [List.mem_cons, List.not_mem_nil, or_false] at hx
    rcases hx with rfl | rfl <;> rfl
  simp only [List.mem_cons] at hx
  rcases hx with rfl | rfl | hx
  · rfl
  · rfl
  split at hx
  · exact absurd hx (List.not_mem_nil x)
  · exact mem_cloudLoggedIn_isCloud x n env hx

/-! ## Equation lemmas for the dispatcher and `initProject` scenarios -/

theorem generateApp_noName (pn : Option String) (options : ProgramArgs) (cenv : CloudEnv)
    (h : truthy pn = false) :
    generateApp pn options cenv =
      ([Event.consoleError missingDirectoryMessage], RunOutcome.exited 1) := by
  simp [generateApp, h]

theorem generateApp_skip (pn : Option String) (options : ProgramArgs) (cenv : CloudEnv)
    (ht : truthy pn = true) (hs : options.skipCloud = true) :
    generateApp pn options cenv =
      ([Event.generateNewApp (pn.getD "") options], RunOutcome.completed) := by
  simp [generateApp, ht, hs]

theorem generateApp_cloud (pn : Option String) (options : ProgramArgs) (cenv : CloudEnv)
    (ht : truthy pn = true) (hs : options.skipCloud = false) :
    generateApp pn options cenv =
      (Event.checkRequirements :: handleCloudProject (pn.getD "") cenv ++
         [Event.generateNewApp (pn.getD "") options], RunOutcome.completed) := by
  simp [generateApp, ht, hs]

theorem quickstart_update_self (args : ProgramArgs) (hq : args.quickstart = false) :
    { args with quickstart := false } = args := by
  cases args
  simp_all

theorem initProject_templateError (pn : Option String) (args : ProgramArgs)
    (penv : PromptEnv) (cenv : CloudEnv) (hT : templateCollides args = true) :
    initProject pn args penv cenv =
      (installEvts pn ++ [Event.consoleError (templateErrorMessage (args.template.getD ""))],
       RunOutcome.exited 1) := by
  simp [initProject, hT]

theorem initProject_conflict (pn : Option String) (args : ProgramArgs)
    (penv : PromptEnv) (cenv : CloudEnv) (hT : templateCollides args = false)
    (hq : args.quickstart = true) (hd : hasDatabaseOptions args = true) :
    initProject pn args penv cenv =
      (installEvts pn ++ [Event.consoleError quickstartConflictMessage],
       RunOutcome.exited 1) := by
  simp [initProject, hT, hq, hd]

theorem initProject_quickstart (pn : Option String) (args : ProgramArgs)
    (penv : PromptEnv) (cenv : CloudEnv) (hT : templateCollides args = false)
    (hq : args.quickstart = true) (hd : hasDatabaseOptions args = false) :
    initProject pn args penv cenv =
      (installEvts pn ++ (generateApp pn args cenv).1, (generateApp pn args cenv).2) := by
  simp [initProject, hT, hq, hd]

theorem initProject_interactive (pn : Option String) (args : ProgramArgs)
    (penv : PromptEnv) (cenv : CloudEnv) (hT : templateCollides args = false)
    (hq : args.quickstart = false) :
    initProject pn args penv cenv =
      (installEvts pn ++
         Event.prompted ((promptUser pn args (hasDatabaseOptions args) penv).2) ::
           Event.checkInstallPath (interactiveDirectory pn args penv) ::
             (generateApp (some (interactiveDirectory pn args penv))
               (interactiveOptions pn args penv) cenv).1,
       (generateApp (some (interactiveDirectory pn args penv))
         (interactiveOptions pn args penv) cenv).2) := by
  cases hd : hasDatabaseOptions args
  · simp [initProject, hT, hq, hd, interactiveDirectory, interactiveOptions]
  · rw [initProject]
    simp only [hT, if_false, Bool.false_eq_true]
    rw [if_neg (by simp [hq])]
    rw [if_pos hd, quickstart_update_self args hq]
    rw [if_neg (by simp [hq])]
    simp [interactiveDirectory, interactiveOptions, hd]

theorem not_mem_handleCloudProject (x : Event) (n : String) (env : CloudEnv)
    (h : x.isCloud = false) : x ∉ handleCloudProject n env := fun hm => by
  rw [mem_handleCloudProject_isCloud x n env hm] at h
  exact Bool.noConfusion h

theorem mem_generateApp_cases (x : Event) (pn : Option String) (options : ProgramArgs)
    (cenv : CloudEnv) (hx : x ∈ (generateApp pn options cenv).1) :
    x = Event.consoleError missingDirectoryMessage ∨ x = Event.checkRequirements ∨
      x.isCloud = true ∨ x = Event.generateNewApp (pn.getD "") options := by
  by_cases ht : truthy pn = true
  · by_cases hs : options.skipCloud = true
    · rw [generateApp_skip _ _ _ ht hs] at hx
      simp at hx
      subst hx
      simp
    · rw [generateApp_cloud _ _ _ ht (by simpa using hs)] at hx
      simp only [List.mem_cons, List.mem_append, List.not_mem_nil, or_false] at hx
      rcases hx with (rfl | hx) | rfl
      · simp
      · exact Or.inr (Or.inr (Or.inl (mem_handleCloudProject_isCloud _ _ _ hx)))
      · simp
  · rw [generateApp_noName _ _ _ (by simpa using ht)] at hx
    simp at hx
    subst hx
    simp

theorem mem_installEvts (x : Event) (pn : Option String) (hx : x ∈ installEvts pn) :
    x = Event.checkInstallPath (pn.getD "") := by
  unfold installEvts at hx
  split at hx
  · simpa using hx
  · exact absurd hx (List.not_mem_nil x)

/-! ## Concrete environments for witnesses -/

/-- A prompt environment used by witnesses. -/
def penvDefault : PromptEnv := { directoryAnswer := "my-strapi-project", quickAnswer := true }

/-- A cloud environment in which every external call succeeds. -/
def cenvHappy : CloudEnv :=
  { initialConfig := Except.ok { introText := "welcome" }
    userChoice := "Login/Sign up"
    tokenService := Except.ok ()
    loginSuccess := Except.ok true
    retrieveToken := Except.ok "token"
    authConfig := Except.ok { introText := "welcome" }
    createProject := Except.ok ()
    save := Except.ok () }

/-- A cloud environment whose very first configuration fetch rejects. -/
def cenvConfigFail : CloudEnv :=
  { cenvHappy with initialConfig := Except.error { response := none } }

/-- A cloud environment in which project creation rejects with an HTTP 403
response carrying a string body. -/
def cenv403 : CloudEnv :=
  { cenvHappy with
    createProject := Except.error { response := some { status := 403, data := some "Trial refused" } } }

/-! ## Claim theorems -/

/-- Claim C3. For every run in which the skip-cloud option is set, the Cloud
Provisioner is never invoked: the run's trace contains no cloud event at all
(no login prompt, no config fetch, no project creation, no descriptor
persistence, no cloud logging or spinner activity). -/
theorem c3_skip_cloud_no_provisioning (pn : Option String) (args : ProgramArgs)
    (penv : PromptEnv) (cenv : CloudEnv) (x : Event) (hs : args.skipCloud = true)
    (hx : x ∈ (initProject pn args penv cenv).1) : x.isCloud = false := by
  have hmemInstall : ∀ y ∈ installEvts pn, Event.isCloud y = false := by
    intro y hy
    unfold installEvts at hy
    split at hy
    · simp at hy; subst hy; rfl
    · exact absurd hy (List.not_mem_nil y)
  by_cases hT : templateCollides args = true
  · rw [initProject_templateError pn args penv cenv hT] at hx
    rcases List.mem_append.1 hx with h | h
    · exact hmemInstall x h
    · simp at h; subst h; rfl
  have hT' : templateCollides args = false := by simpa using hT
  cases hq : args.quickstart
  · rw [initProject_interactive pn args penv cenv hT' hq] at hx
    rcases List.mem_append.1 hx with h | h
    · exact hmemInstall x h
    simp only [List.mem_cons] at h
    rcases h with rfl | rfl | h
    · rfl
    · rfl
    have hsl : (interactiveOptions pn args penv).skipCloud = true := by
      simp [interactiveOptions, hs]
    by_cases htd : truthy (some (interactiveDirectory pn args penv)) = true
    · rw [generateApp_skip _ _ _ htd hsl] at h
      simp at h; subst h; rfl
    · rw [generateApp_noName _ _ _ (by simpa using htd)] at h
      simp at h; subst h; rfl
  · cases hd : hasDatabaseOptions args
    · rw [initProject_quickstart pn args penv cenv hT' hq hd] at hx
      rcases List.mem_append.1 hx with h | h
      · exact hmemInstall x h
      by_cases htp : truthy pn = true
      · rw [generateApp_skip _ _ _ htp hs] at h
        simp at h; subst h; rfl
      · rw [generateApp_noName _ _ _ (by simpa using htp)] at h
        simp at h; subst h; rfl
    · rw [initProject_conflict pn args penv cenv hT' hq hd] at hx
      rcases List.mem_append.1 hx with h | h
      · exact hmemInstall x h
      · simp at h; subst h; rfl

/-- Witness for C3: the run `my-app --quickstart --skip-cloud` reaches the
generator, and that generator event is classified non-cloud by the theorem. -/
theorem c3_skip_cloud_no_provisioning_witness :
    Event.generateNewApp "my-app" { quickstart := true, skipCloud := true } ∈
        (initProject (some "my-app") { quickstart := true, skipCloud := true }
          penvDefault cenvHappy).1 ∧
      Event.isCloud (Event.generateNewApp "my-app" { quickstart := true, skipCloud := true }) =
        false :=
  ⟨by decide,
   c3_skip_cloud_no_provisioning (some "my-app") { quickstart := true, skipCloud := true }
     penvDefault cenvHappy _ rfl (by decide)⟩

/-- Claim C4. When cloud project creation rejects with an HTTP 403 response,
the message shown (through the spinner failure, since the spinner is running)
is the server-supplied string body when present and the fixed fallback string
otherwise, no descriptor save happens anywhere in the run, and the run still
reaches the external generator and completes. -/
theorem c4_cloud_403_message_no_persist (name : String) (options : ProgramArgs)
    (cenv : CloudEnv) (cfg cfg2 : CloudConfig) (tok : String) (resp : CloudResponse)
    (hname : name ≠ "") (hskip : options.skipCloud = false)
    (h1 : cenv.initialConfig = Except.ok cfg) (h2 : cenv.userChoice ≠ "Skip")
    (h3 : cenv.tokenService = Except.ok ()) (h4 : cenv.loginSuccess = Except.ok true)
    (h5 : cenv.retrieveToken = Except.ok tok) (h6 : cenv.authConfig = Except.ok cfg2)
    (h7 : cenv.createProject = Except.error { response := some resp })
    (h8 : resp.status = 403) :
    Event.spinnerFail (resp.data.getD fallback403Message) ∈
        (generateApp (some name) options cenv).1 ∧
      (∀ d, Event.saveCall d ∉ (generateApp (some name) options cenv).1) ∧
      Event.generateNewApp name options ∈ (generateApp (some name) options cenv).1 ∧
      (generateApp (some name) options cenv).2 = RunOutcome.completed := by
  have ht : truthy (some name) = true := by simp [truthy, hname]
  have key : generateApp (some name) options cenv =
      ([Event.checkRequirements, Event.configCall, Event.logIntro cfg.introText,
        Event.promptLogin, Event.loginCall, Event.logDebugE, Event.tokenCall,
        Event.logDebugE, Event.configCall, Event.logDebugE, Event.logDebugE,
        Event.spinnerStart, Event.createProjectCall name, Event.logDebugE,
        Event.spinnerFail (resp.data.getD fallback403Message),
        Event.generateNewApp name options], RunOutcome.completed) := by
    rw [generateApp_cloud (some name) options cenv ht hskip]
    simp [handleCloudProject, cloudLoggedIn, cloudCatch, h1, h2, h3, h4, h5, h6, h7, h8]
  rw [key]
  exact ⟨by simp, by simp, by simp, rfl⟩

/-- Witness for C4 at a concrete 403 environment with a string body. -/
theorem c4_cloud_403_message_no_persist_witness :
    Event.spinnerFail "Trial refused" ∈ (generateApp (some "my-app") {} cenv403).1 ∧
      (∀ d, Event.saveCall d ∉ (generateApp (some "my-app") {} cenv403).1) ∧
      Event.generateNewApp "my-app" {} ∈ (generateApp (some "my-app") {} cenv403).1 ∧
      (generateApp (some "my-app") {} cenv403).2 = RunOutcome.completed :=
  c4_cloud_403_message_no_persist "my-app" {} cenv403 { introText := "welcome" }
    { introText := "welcome" } "token" { status := 403, data := some "Trial refused" }
    (by decide) rfl rfl (by decide) rfl rfl rfl rfl rfl rfl

/-- Claim C5. If the initial remote configuration fetch rejects, the cloud
provisioner logs the generic default message and stops: the full run trace is
exactly the requirements check, the failed config call, the debug and error
log, and the generator invocation — so no login prompt is ever shown, no
further cloud call happens, and the run completes normally. -/
theorem c5_config_fetch_failure (name : String) (options : ProgramArgs) (cenv : CloudEnv)
    (e : CloudError) (hname : name ≠ "") (hskip : options.skipCloud = false)
    (hcfg : cenv.initialConfig = Except.error e) :
    (generateApp (some name) options cenv).1 =
        [Event.checkRequirements, Event.configCall, Event.logDebugE,
         Event.logErrorE defaultErrorMessage, Event.generateNewApp name options] ∧
      Event.promptLogin ∉ (generateApp (some name) options cenv).1 ∧
      (generateApp (some name) options cenv).2 = RunOutcome.completed := by
  have ht : truthy (some name) = true := by simp [truthy, hname]
  have key : generateApp (some name) options cenv =
      ([Event.checkRequirements, Event.configCall, Event.logDebugE,
        Event.logErrorE defaultErrorMessage, Event.generateNewApp name options],
       RunOutcome.completed) := by
    rw [generateApp_cloud (some name) options cenv ht hskip]
    simp [handleCloudProject, hcfg]
  rw [key]
  exact ⟨rfl, by simp, rfl⟩

/-- Witness for C5 at a concrete failing configuration fetch. -/
theorem c5_config_fetch_failure_witness :
    (generateApp (some "my-app") {} cenvConfigFail).1 =
        [Event.checkRequirements, Event.configCall, Event.logDebugE,
         Event.logErrorE defaultErrorMessage, Event.generateNewApp "my-app" {}] ∧
      Event.promptLogin ∉ (generateApp (some "my-app") {} cenvConfigFail).1 ∧
      (generateApp (some "my-app") {} cenvConfigFail).2 = RunOutcome.completed :=
  c5_config_fetch_failure "my-app" {} cenvConfigFail { response := none }
    (by decide) rfl rfl

/-- Claim C1 (amended: provided the `--template` value does not collide with a
declared flag name, since that check runs first).  With `--quickstart` and at
least one database flag set, the run exits with code 1 and prints the message
listing the conflicting database flag names. -/
theorem c1_quickstart_db_conflict (pn : Option String) (args : ProgramArgs)
    (penv : PromptEnv) (cenv : CloudEnv)
    (hq : args.quickstart = true) (hd : hasDatabaseOptions args = true)
    (hT : templateCollides args = false) :
    (initProject pn args penv cenv).2 = RunOutcome.exited 1 ∧
      Event.consoleError quickstartConflictMessage ∈ (initProject pn args penv cenv).1 := by
  rw [initProject_conflict pn args penv cenv hT hq hd]
  exact ⟨rfl, by simp⟩

/-- Witness for C1: `--quickstart --dbclient postgres` exits 1 with the
conflict message. -/
theorem c1_quickstart_db_conflict_witness :
    (initProject (some "my-app") { quickstart := true, dbclient := some "postgres" }
        penvDefault cenvHappy).2 = RunOutcome.exited 1 ∧
      Event.consoleError quickstartConflictMessage ∈
        (initProject (some "my-app") { quickstart := true, dbclient := some "postgres" }
          penvDefault cenvHappy).1 :=
  c1_quickstart_db_conflict (some "my-app") { quickstart := true, dbclient := some "postgres" }
    penvDefault cenvHappy rfl (by decide) (by decide)

/-- Counterexample to C1 as stated: with `--quickstart --dbclient postgres
--template --debug` both hypotheses of the claim hold, yet the run prints the
invalid-template error instead of the message listing the database flags,
because the template check exits first. -/
theorem c1_counterexample :
    ({ quickstart := true, dbclient := some "postgres", template := some "--debug" } :
          ProgramArgs).quickstart = true ∧
      hasDatabaseOptions
          { quickstart := true, dbclient := some "postgres", template := some "--debug" } = true ∧
      Event.consoleError quickstartConflictMessage ∉
        (initProject (some "my-app")
          { quickstart := true, dbclient := some "postgres", template := some "--debug" }
          penvDefault cenvHappy).1 ∧
      Event.consoleError (templateErrorMessage "--debug") ∈
        (initProject (some "my-app")
          { quickstart := true, dbclient := some "postgres", template := some "--debug" }
          penvDefault cenvHappy).1 := by
  decide

/-- Claim C2. Whenever a database flag is present, any invocation of the
external generator during the run receives options with `quickstart = false`
(runs that exit at validation invoke no generator at all). -/
theorem c2_db_forces_quickstart_false (pn : Option String) (args : ProgramArgs)
    (penv : PromptEnv) (cenv : CloudEnv) (d : String) (opts : ProgramArgs)
    (hd : hasDatabaseOptions args = true)
    (hg : Event.generateNewApp d opts ∈ (initProject pn args penv cenv).1) :
    opts.quickstart = false := by
  by_cases hT : templateCollides args = true
  · rw [initProject_templateError pn args penv cenv hT] at hg
    rcases List.mem_append.1 hg with h | h
    · exact absurd (mem_installEvts _ _ h) (by simp)
    · simp at h
  have hT' : templateCollides args = false := by simpa using hT
  cases hq : args.quickstart
  · rw [initProject_interactive pn args penv cenv hT' hq] at hg
    rcases List.mem_append.1 hg with h | h
    · exact absurd (mem_installEvts _ _ h) (by simp)
    simp only [List.mem_cons] at h
    rcases h with h | h | h
    · simp at h
    · simp at h
    rcases mem_generateApp_cases _ _ _ _ h with h' | h' | h' | h'
    · simp at h'
    · simp at h'
    · simp [Event.isCloud] at h'
    · have hopts : opts = interactiveOptions pn args penv := by
        have := h'
        simp at this
        exact this.2
      rw [hopts]
      simp [interactiveOptions, promptUser, hq, hd]
  · rw [initProject_conflict pn args penv cenv hT' hq hd] at hg
    rcases List.mem_append.1 hg with h | h
    · exact absurd (mem_installEvts _ _ h) (by simp)
    · simp at h

/-- Witness for C2: with `--dbclient postgres` the interactive run reaches
the generator and the options it receives carry `quickstart = false`. -/
theorem c2_db_forces_quickstart_false_witness :
    hasDatabaseOptions { dbclient := some "postgres", skipCloud := true } = true ∧
      Event.generateNewApp "my-app" { dbclient := some "postgres", skipCloud := true } ∈
        (initProject (some "my-app") { dbclient := some "postgres", skipCloud := true }
          penvDefault cenvHappy).1 ∧
      ({ dbclient := some "postgres", skipCloud := true } : ProgramArgs).quickstart = false :=
  ⟨by decide, by decide,
   c2_db_forces_quickstart_false (some "my-app")
     { dbclient := some "postgres", skipCloud := true } penvDefault cenvHappy "my-app"
     { dbclient := some "postgres", skipCloud := true } (by decide) (by decide)⟩

/-- Claim C6 (amended: provided no database flag is present and the
`--template` value does not collide with a declared flag name, since those
checks run first and print their own messages).  `--quickstart` without a
directory argument exits with code 1, prints the missing-directory message,
and never invokes the external generator. -/
theorem c6_quickstart_missing_directory (args : ProgramArgs) (penv : PromptEnv)
    (cenv : CloudEnv) (hq : args.quickstart = true)
    (hd : hasDatabaseOptions args = false) (hT : templateCollides args = false) :
    (initProject none args penv cenv).2 = RunOutcome.exited 1 ∧
      Event.consoleError missingDirectoryMessage ∈ (initProject none args penv cenv).1 ∧
      ∀ d o, Event.generateNewApp d o ∉ (initProject none args penv cenv).1 := by
  have key : initProject none args penv cenv =
      ([Event.consoleError missingDirectoryMessage], RunOutcome.exited 1) := by
    rw [initProject_quickstart none args penv cenv hT hq hd,
      generateApp_noName none args cenv rfl]
    simp [installEvts, truthy]
  rw [key]
  exact ⟨rfl, by simp, by simp⟩

/-- Witness for C6 at `--quickstart` with no directory and no other flags. -/
theorem c6_quickstart_missing_directory_witness :
    (initProject none { quickstart := true } penvDefault cenvHappy).2 = RunOutcome.exited 1 ∧
      Event.consoleError missingDirectoryMessage ∈
        (initProject none { quickstart := true } penvDefault cenvHappy).1 ∧
      ∀ d o, Event.generateNewApp d o ∉
        (initProject none { quickstart := true } penvDefault cenvHappy).1 :=
  c6_quickstart_missing_directory { quickstart := true } penvDefault cenvHappy rfl
    (by decide) (by decide)

/-- Counterexample to C6 as stated: `--quickstart --dbclient postgres` with
no directory exits 1 printing the quickstart/database conflict message, not
the missing-directory message. -/
theorem c6_counterexample :
    ({ quickstart := true, dbclient := some "postgres" } : ProgramArgs).quickstart = true ∧
      Event.consoleError missingDirectoryMessage ∉
        (initProject none { quickstart := true, dbclient := some "postgres" }
          penvDefault cenvHappy).1 ∧
      Event.consoleError quickstartConflictMessage ∈
        (initProject none { quickstart := true, dbclient := some "postgres" }
          penvDefault cenvHappy).1 := by
  decide

/-- The options record commander produces for `myapp --quickstart
--skip-cloud` (boolean flags set, everything else at its default). -/
def c7Args : ProgramArgs := { quickstart := true, skipCloud := true }

/-- Claim C7. End-to-end `myapp --quickstart --skip-cloud`: the run's trace is
exactly the install-path pre-check followed by the generator invocation with
directory `myapp` and options carrying `quickstart = true` and
`skipCloud = true` — so the prompter and the cloud provisioner never run —
and the run completes normally. -/
theorem c7_end_to_end_quickstart_skip_cloud :
    initProject (some "myapp") c7Args penvDefault cenvHappy =
        ([Event.checkInstallPath "myapp", Event.generateNewApp "myapp" c7Args],
         RunOutcome.completed) ∧
      c7Args.quickstart = true ∧ c7Args.skipCloud = true :=
  ⟨by decide, rfl, rfl⟩

/-- Claim C8. A `--template` value equal to one of the declared flag strings
makes the run exit with code 1 printing the invalid-template message; with no
such collision, the only fatal messages a run can print are the
quickstart/database conflict and the missing-directory message — the
template check never terminates it. -/
theorem c8_template_flag_collision (pn : Option String) (args : ProgramArgs)
    (penv : PromptEnv) (cenv : CloudEnv) (t : String) :
    (args.template = some t → t ∈ programFlags →
      (initProject pn args penv cenv).2 = RunOutcome.exited 1 ∧
        Event.consoleError (templateErrorMessage t) ∈ (initProject pn args penv cenv).1) ∧
      (templateCollides args = false →
        ∀ s, Event.consoleError s ∈ (initProject pn args penv cenv).1 →
          s = quickstartConflictMessage ∨ s = missingDirectoryMessage) := by
  constructor
  · intro htmpl hmem
    have hne : t ≠ "" := by
      have hall : ∀ u ∈ programFlags, u ≠ "" := by decide
      exact hall t hmem
    have hT : templateCollides args = true := by
      simp [templateCollides, htmpl, truthy, hne, hmem]
    rw [initProject_templateError pn args penv cenv hT, htmpl]
    exact ⟨rfl, by simp⟩
  · intro hT s hs
    cases hq : args.quickstart
    · rw [initProject_interactive pn args penv cenv hT hq] at hs
      rcases List.mem_append.1 hs with h | h
      · exact absurd (mem_installEvts _ _ h) (by simp)
      simp only [List.mem_cons] at h
      rcases h with h | h | h
      · simp at h
      · simp at h
      rcases mem_generateApp_cases _ _ _ _ h with h' | h' | h' | h'
      · right
        simpa using h'
      · simp at h'
      · simp [Event.isCloud] at h'
      · simp at h'
    · cases hd : hasDatabaseOptions args
      · rw [initProject_quickstart pn args penv cenv hT hq hd] at hs
        rcases List.mem_append.1 hs with h | h
        · exact absurd (mem_installEvts _ _ h) (by simp)
        rcases mem_generateApp_cases _ _ _ _ h with h' | h' | h' | h'
        · right
          simpa using h'
        · simp at h'
        · simp [Event.isCloud] at h'
        · simp at h'
      · rw [initProject_conflict pn args penv cenv hT hq hd] at hs
        rcases List.mem_append.1 hs with h | h
        · exact absurd (mem_installEvts _ _ h) (by simp)
        · left
          simpa using h

/-- Witness for C8: `--template --debug` exits 1 with the invalid-template
message. -/
theorem c8_template_flag_collision_witness :
    (initProject (some "my-app") { template := some "--debug" } penvDefault cenvHappy).2 =
        RunOutcome.exited 1 ∧
      Event.consoleError (templateErrorMessage "--debug") ∈
        (initProject (some "my-app") { template := some "--debug" } penvDefault cenvHappy).1 :=
  (c8_template_flag_collision (some "my-app") { template := some "--debug" } penvDefault
      cenvHappy "--debug").1 rfl (by decide)

/-- Claim C9. In any run that reaches the prompter, the directory question is
asked exactly when no (truthy) directory argument was pre-supplied, and the
installation-type question exactly when `--quickstart` was not passed and no
database option is present. -/
theorem c9_prompter_questions (pn : Option String) (args : ProgramArgs)
    (penv : PromptEnv) (cenv : CloudEnv) (qs : List Question)
    (hp : Event.prompted qs ∈ (initProject pn args penv cenv).1) :
    (Question.directory ∈ qs ↔ truthy pn = false) ∧
      (Question.installType ∈ qs ↔
        (args.quickstart = false ∧ hasDatabaseOptions args = false)) := by
  by_cases hT : templateCollides args = true
  · rw [initProject_templateError pn args penv cenv hT] at hp
    rcases List.mem_append.1 hp with h | h
    · exact absurd (mem_installEvts _ _ h) (by simp)
    · simp at h
  have hT' : templateCollides args = false := by simpa using hT
  cases hq : args.quickstart
  · rw [initProject_interactive pn args penv cenv hT' hq] at hp
    rcases List.mem_append.1 hp with h | h
    · exact absurd (mem_installEvts _ _ h) (by simp)
    simp only [List.mem_cons] at h
    rcases h with h | h | h
    · have hqs : qs = (promptUser pn args (hasDatabaseOptions args) penv).2 := by
        simpa using h
      subst hqs
      cases htp : truthy pn <;> cases hdb : hasDatabaseOptions args <;>
        simp [promptUser, hq, htp, hdb]
    · simp at h
    · rcases mem_generateApp_cases _ _ _ _ h with h' | h' | h' | h'
      · simp at h'
      · simp at h'
      · simp [Event.isCloud] at h'
      · simp at h'
  · cases hd : hasDatabaseOptions args
    · rw [initProject_quickstart pn args penv cenv hT' hq hd] at hp
      rcases List.mem_append.1 hp with h | h
      · exact absurd (mem_installEvts _ _ h) (by simp)
      · rcases mem_generateApp_cases _ _ _ _ h with h' | h' | h' | h'
        · simp at h'
        · simp at h'
        · simp [Event.isCloud] at h'
        · simp at h'
    · rw [initProject_conflict pn args penv cenv hT' hq hd] at hp
      rcases List.mem_append.1 hp with h | h
      · exact absurd (mem_installEvts _ _ h) (by simp)
      · simp at h

/-- Witness for C9: a flagless run with no directory argument asks both
questions, and the two biconditionals hold there. -/
theorem c9_prompter_questions_witness :
    Event.prompted [Question.directory, Question.installType] ∈
        (initProject none {} penvDefault cenvHappy).1 ∧
      ((Question.directory ∈ [Question.directory, Question.installType]) ↔
        truthy (none : Option String) = false) ∧
      ((Question.installType ∈ [Question.directory, Question.installType]) ↔
        (({} : ProgramArgs).quickstart = false ∧ hasDatabaseOptions {} = false)) :=
  ⟨by decide,
   (c9_prompter_questions none {} penvDefault cenvHappy
     [Question.directory, Question.installType] (by decide)).1,
   (c9_prompter_questions none {} penvDefault cenvHappy
     [Question.directory, Question.installType] (by decide)).2⟩

theorem interactiveOptions_eq (pn : Option String) (args : ProgramArgs) (penv : PromptEnv)
    (hq : args.quickstart = false) :
    interactiveOptions pn args penv =
      { args with
        quickstart :=
          if hasDatabaseOptions args then args.quickstart else penv.quickAnswer } := by
  cases hdb : hasDatabaseOptions args <;>
    simp [interactiveOptions, promptUser, hq, hdb]

/-- Claim C10. In every interactive run the options record handed to the
external generator is the parsed record with every field preserved except
`template` (re-set to the parsed template value, hence unchanged) and
`quickstart` (the prompt answer when the installation-type question was asked
— i.e. when no database option is present — and the parsed value
otherwise). -/
theorem c10_interactive_frame (pn : Option String) (args : ProgramArgs)
    (penv : PromptEnv) (cenv : CloudEnv) (qs : List Question) (d : String)
    (opts : ProgramArgs)
    (hp : Event.prompted qs ∈ (initProject pn args penv cenv).1)
    (hg : Event.generateNewApp d opts ∈ (initProject pn args penv cenv).1) :
    opts = { args with
      quickstart :=
        if hasDatabaseOptions args then args.quickstart else penv.quickAnswer } := by
  by_cases hT : templateCollides args = true
  · rw [initProject_templateError pn args penv cenv hT] at hp
    rcases List.mem_append.1 hp with h | h
    · exact absurd (mem_installEvts _ _ h) (by simp)
    · simp at h
  have hT' : templateCollides args = false := by simpa using hT
  cases hq : args.quickstart
  · rw [initProject_interactive pn args penv cenv hT' hq] at hg
    rcases List.mem_append.1 hg with h | h
    · exact absurd (mem_installEvts _ _ h) (by simp)
    simp only [List.mem_cons] at h
    rcases h with h | h | h
    · simp at h
    · simp at h
    rcases mem_generateApp_cases _ _ _ _ h with h' | h' | h' | h'
    · simp at h'
    · simp at h'
    · simp [Event.isCloud] at h'
    · have hopts : opts = interactiveOptions pn args penv := by
        simp at h'
        exact h'.2
      rw [hopts, interactiveOptions_eq pn args penv hq, hq]
  · cases hd : hasDatabaseOptions args
    · rw [initProject_quickstart pn args penv cenv hT' hq hd] at hp
      rcases List.mem_append.1 hp with h | h
      · exact absurd (mem_installEvts _ _ h) (by simp)
      · rcases mem_generateApp_cases _ _ _ _ h with h' | h' | h' | h'
        · simp at h'
        · simp at h'
        · simp [Event.isCloud] at h'
        · simp at h'
    · rw [initProject_conflict pn args penv cenv hT' hq hd] at hp
      rcases List.mem_append.1 hp with h | h
      · exact absurd (mem_installEvts _ _ h) (by simp)
      · simp at h

/-- Witness for C10: in an interactive run with a pre-supplied directory, no
database flags, and prompt answer "quickstart", the generator's options are
the parsed record with only `quickstart` overridden by the answer. -/
theorem c10_interactive_frame_witness :
    Event.prompted [Question.installType] ∈
        (initProject (some "my-app") { skipCloud := true } penvDefault cenvHappy).1 ∧
      Event.generateNewApp "my-app" { quickstart := true, skipCloud := true } ∈
        (initProject (some "my-app") { skipCloud := true } penvDefault cenvHappy).1 ∧
      ({ quickstart := true, skipCloud := true } : ProgramArgs) =
        { ({ skipCloud := true } : ProgramArgs) with
          quickstart :=
            if hasDatabaseOptions { skipCloud := true } then
              ({ skipCloud := true } : ProgramArgs).quickstart
            else penvDefault.quickAnswer } :=
  ⟨by decide, by decide,
   c10_interactive_frame (some "my-app") { skipCloud := true } penvDefault cenvHappy
     [Question.installType] "my-app" { quickstart := true, skipCloud := true }
     (by decide) (by decide)⟩

end CreateStrapiApp
